import Mathlib

/-!
Verification of the rClip audio clipper core (`src/lib.rs`).

The per-sample arithmetic of the Rust source (done on `f32`) is embedded over
`ℝ`: `hard_clip`, `soft_clip` and the per-sample body of `RClip::process` are
translated directly; the parameter-smoothing engine and the decibel-to-linear
conversion live in the `nih_plug` dependency and are modelled from the spec.
-/

noncomputable section

/-- Clipping mode selector, `enum ClippingModes` in `src/lib.rs`. -/
inductive ClippingModes
  | HardClip
  | SoftClip
  deriving DecidableEq

/-- `hard_clip` from `src/lib.rs` (lines 5-9): floor the ceiling to `1.0e-12`,
then clamp the signal to `[-ceiling, ceiling]`. -/
def hard_clip (signal ceiling : ℝ) : ℝ :=
  let c := max ceiling 1.0e-12
  min (max signal (-c)) c

/-- `soft_clip` from `src/lib.rs` (lines 10-15): floor the ceiling to `1.0e-12`,
then apply the tanh saturation curve scaled by the ceiling. -/
def soft_clip (signal ceiling : ℝ) : ℝ :=
  let c := max ceiling 1.0e-12
  let x := Real.tanh (signal / c)
  x * c

/-- Modelled from the spec: `nih_plug::util::db_to_gain`, the decibel-to-linear
conversion used by `RClip::process` (the function lives in the `nih_plug`
dependency, not in this repository): `linear = 10 ^ (db / 20)`. -/
def db_to_gain (db : ℝ) : ℝ :=
  (10 : ℝ) ^ (db / 20)

/-- The per-sample body of the inner loop of `RClip::process`
(`src/lib.rs` lines 141-150): gain staging, clipping-mode dispatch, then the
delta/wet output selection. -/
def transform (dry gain ceiling : ℝ) (mode : ClippingModes) (delta : Bool) : ℝ :=
  let signal := dry * gain
  let wet :=
    match mode with
    | ClippingModes.HardClip => hard_clip signal ceiling
    | ClippingModes.SoftClip => soft_clip signal ceiling
  if delta then wet - dry else wet

/-- Modelled from the spec: the state of a linear parameter smoother
(`nih_plug`'s smoother with `SmoothingStyle::Linear`, a dependency not in this
repository). It holds the current live value (in dB), the latest target, the
remaining step count of the ramp, and the per-step increment. -/
structure Smoother where
  current : ℝ
  target : ℝ
  stepsLeft : ℕ
  stepSize : ℝ

/-- Modelled from the spec: advance one smoothing step and return the new live
value together with the advanced state; once the ramp is exhausted the target
is returned unchanged. -/
def Smoother.next (s : Smoother) : ℝ × Smoother :=
  if s.stepsLeft = 0 then (s.target, s)
  else
    let c := s.current + s.stepSize
    (c, { s with current := c, stepsLeft := s.stepsLeft - 1 })

/-- The state component of one smoothing step. -/
def Smoother.advance (s : Smoother) : Smoother :=
  s.next.2

/-- The value component of one smoothing step. -/
def Smoother.peek (s : Smoother) : ℝ :=
  s.next.1

/-- Parameter smoothing style (`nih_plug::SmoothingStyle`, dependency; only the
variants this plugin touches). The `Linear` payload is the smoothing time in
milliseconds. -/
inductive SmoothingStyle
  | NoSmoothing
  | Linear (ms : ℝ)

/-- A linear float range, `FloatRange::Linear` in `nih_plug`. -/
structure FloatRangeLinear where
  min : ℝ
  max : ℝ

/-- A float parameter as configured in `PluginParams::default`: name, default
value, range, optional step size, smoothing style, display unit, and the
smoother state owned by the parameter. -/
structure FloatParam where
  name : String
  value : ℝ
  range : FloatRangeLinear
  stepSize : Option ℝ
  smoothing : SmoothingStyle
  unit : String
  smoothed : Smoother

/-- `FloatParam::new(name, default, range)`: no step size, no smoothing, empty
unit, smoother initialised at the default with zero pending ramp. -/
def FloatParam.new (name : String) (default : ℝ) (range : FloatRangeLinear) : FloatParam :=
  { name := name
    value := default
    range := range
    stepSize := none
    smoothing := SmoothingStyle.NoSmoothing
    unit := ""
    smoothed := { current := default, target := default, stepsLeft := 0, stepSize := 0 } }

/-- `.with_step_size(step)` builder. -/
def FloatParam.with_step_size (p : FloatParam) (step : ℝ) : FloatParam :=
  { p with stepSize := some step }

/-- `.with_smoother(style)` builder. -/
def FloatParam.with_smoother (p : FloatParam) (style : SmoothingStyle) : FloatParam :=
  { p with smoothing := style }

/-- `.with_unit(u)` builder. -/
def FloatParam.with_unit (p : FloatParam) (u : String) : FloatParam :=
  { p with unit := u }

/-- A boolean parameter, `BoolParam` in `nih_plug`. -/
structure BoolParam where
  name : String
  value : Bool

/-- `BoolParam::new(name, default)`. -/
def BoolParam.new (name : String) (default : Bool) : BoolParam :=
  { name := name, value := default }

/-- An enum parameter over the clipping modes, `EnumParam<ClippingModes>`. -/
structure EnumParamClippingModes where
  name : String
  value : ClippingModes

/-- `EnumParam::new(name, default)`. -/
def EnumParamClippingModes.new (name : String) (default : ClippingModes) :
    EnumParamClippingModes :=
  { name := name, value := default }

/-- `struct PluginParams` from `src/lib.rs` (lines 27-40). -/
structure PluginParams where
  mode : EnumParamClippingModes
  gain : FloatParam
  threshold : FloatParam
  delta : BoolParam

/-- `PluginParams::default` from `src/lib.rs` (lines 50-81). -/
def PluginParams.default : PluginParams :=
  { mode := EnumParamClippingModes.new "Mode" ClippingModes.HardClip
    gain :=
      (((FloatParam.new "Gain" 0.0 { min := -12.0, max := 12.0 }).with_step_size
        0.1).with_smoother (SmoothingStyle.Linear 50.0)).with_unit " dB"
    threshold :=
      (((FloatParam.new "Threshold" 0.0 { min := -24.0, max := 0.0 }).with_step_size
        0.1).with_smoother (SmoothingStyle.Linear 50.0)).with_unit " dB"
    delta := BoolParam.new "Delta" false }

/-- `struct RClip` from `src/lib.rs`: the processor holds its parameters (which
in turn own the smoothing state). -/
structure RClip where
  params : PluginParams

/-- `RClip::default`. -/
def RClip.default : RClip :=
  { params := PluginParams.default }

/-- `RClip::reset` from `src/lib.rs` (line 123): the body is empty. -/
def RClip.reset (p : RClip) : RClip :=
  p

/-- `nih_plug::ProcessStatus` (dependency), the status returned by `process`. -/
inductive ProcessStatus
  | Normal
  | Tail (samples : ℕ)
  | KeepAlive
  | Error (msg : String)
  deriving DecidableEq

/-- The frame loop of `RClip::process` (`src/lib.rs` lines 134-151): for each
frame, pull one gain-smoothing step and one threshold-smoothing step, convert
both to linear, and apply `transform` to every channel sample of the frame.
A buffer is a list of frames; a frame is a list of per-channel samples. -/
def processFrames (mode : ClippingModes) (delta : Bool) :
    Smoother → Smoother → List (List ℝ) → List (List ℝ) × Smoother × Smoother
  | gs, ts, [] => ([], gs, ts)
  | gs, ts, frame :: rest =>
    let gsn := gs.next
    let gain := db_to_gain gsn.1
    let tsn := ts.next
    let ceiling := db_to_gain tsn.1
    let out := frame.map fun s => transform s gain ceiling mode delta
    let r := processFrames mode delta gsn.2 tsn.2 rest
    (out :: r.1, r.2)

/-- `RClip::process` from `src/lib.rs` (lines 125-154): read the delta flag and
mode once, run the frame loop, store the advanced smoother states back into the
parameters, and return `ProcessStatus::Normal`. -/
def RClip.process (p : RClip) (buffer : List (List ℝ)) :
    List (List ℝ) × RClip × ProcessStatus :=
  let delta := p.params.delta.value
  let mode := p.params.mode.value
  let r := processFrames mode delta p.params.gain.smoothed p.params.threshold.smoothed buffer
  (r.1,
    { params :=
        { p.params with
          gain := { p.params.gain with smoothed := r.2.1 }
          threshold := { p.params.threshold with smoothed := r.2.2 } } },
    ProcessStatus.Normal)

/-! ### Helper lemmas -/

/-- The floored ceiling is strictly positive. -/
theorem floored_ceiling_pos (ceiling : ℝ) : 0 < max ceiling 1.0e-12 :=
  lt_max_of_lt_right (by norm_num)

/-- The hard clipper is bounded by the floored ceiling. -/
theorem abs_hard_clip_le (signal ceiling : ℝ) :
    |hard_clip signal ceiling| ≤ max ceiling 1.0e-12 := by
  have hc : 0 < max ceiling 1.0e-12 := floored_ceiling_pos ceiling
  unfold hard_clip
  rw [abs_le]
  constructor
  · exact le_min (le_max_right _ _) (by linarith)
  · exact min_le_right _ _

/-- `tanh` written as a quotient of exponentials of the doubled argument. -/
theorem tanh_eq_exp_quot (x : ℝ) :
    Real.tanh x = (Real.exp (2 * x) - 1) / (Real.exp (2 * x) + 1) := by
  have hP : 0 < Real.exp x := Real.exp_pos x
  have h2 : Real.exp (2 * x) = Real.exp x * Real.exp x := by
    rw [two_mul, Real.exp_add]
  rw [Real.tanh_eq_sinh_div_cosh, Real.sinh_eq, Real.cosh_eq, h2, Real.exp_neg]
  rw [div_div_div_cancel_right₀]
  · field_simp
  · positivity

/-- The magnitude of `tanh` is strictly below `1`. -/
theorem abs_tanh_lt_one (x : ℝ) : |Real.tanh x| < 1 := by
  have hE : 0 < Real.exp (2 * x) := Real.exp_pos _
  have hd : (0 : ℝ) < Real.exp (2 * x) + 1 := by linarith
  rw [tanh_eq_exp_quot, abs_div, abs_of_pos hd, div_lt_one hd, abs_lt]
  constructor <;> linarith

/-- The soft clipper is strictly bounded by the floored ceiling. -/
theorem abs_soft_clip_lt (signal ceiling : ℝ) :
    |soft_clip signal ceiling| < max ceiling 1.0e-12 := by
  have hc : 0 < max ceiling 1.0e-12 := floored_ceiling_pos ceiling
  unfold soft_clip
  rw [abs_mul, abs_of_pos hc]
  calc |Real.tanh (signal / max ceiling 1.0e-12)| * max ceiling 1.0e-12
      < 1 * max ceiling 1.0e-12 := by
        exact mul_lt_mul_of_pos_right (abs_tanh_lt_one _) hc
    _ = max ceiling 1.0e-12 := one_mul _

/-- `tanh` is strictly positive on positive arguments. -/
theorem tanh_pos_of_pos (x : ℝ) (hx : 0 < x) : 0 < Real.tanh x := by
  have hE : 1 < Real.exp (2 * x) := Real.one_lt_exp_iff.mpr (by linarith)
  rw [tanh_eq_exp_quot]
  exact div_pos (by linarith) (by linarith)

/-- The gain smoother state returned by the frame loop has advanced exactly
once per frame. -/
theorem processFrames_gain_state (mode : ClippingModes) (delta : Bool)
    (gs ts : Smoother) (frames : List (List ℝ)) :
    (processFrames mode delta gs ts frames).2.1 = Smoother.advance^[frames.length] gs := by
  induction frames generalizing gs ts with
  | nil => rfl
  | cons frame rest ih =>
    simp only [processFrames, List.length_cons]
    rw [ih, Function.iterate_succ_apply]
    rfl

/-- The threshold smoother state returned by the frame loop has advanced
exactly once per frame. -/
theorem processFrames_threshold_state (mode : ClippingModes) (delta : Bool)
    (gs ts : Smoother) (frames : List (List ℝ)) :
    (processFrames mode delta gs ts frames).2.2 = Smoother.advance^[frames.length] ts := by
  induction frames generalizing gs ts with
  | nil => rfl
  | cons frame rest ih =>
    simp only [processFrames, List.length_cons]
    rw [ih, Function.iterate_succ_apply]
    rfl

/-- The frame loop yields one output frame per input frame. -/
theorem processFrames_length (mode : ClippingModes) (delta : Bool)
    (gs ts : Smoother) (frames : List (List ℝ)) :
    (processFrames mode delta gs ts frames).1.length = frames.length := by
  induction frames generalizing gs ts with
  | nil => rfl
  | cons frame rest ih =>
    simp only [processFrames, List.length_cons]
    rw [ih]

/-- Closed form of the frame loop's output: frame `i` is the input frame with
`transform` applied to every channel sample, using the linear conversion of the
`i`-th smoothed gain and threshold values — the same pair for all channels of
the frame. -/
theorem processFrames_getElem (mode : ClippingModes) (delta : Bool)
    (gs ts : Smoother) (frames : List (List ℝ)) (i : ℕ) :
    ((processFrames mode delta gs ts frames).1)[i]? =
      (frames[i]?).map (List.map fun s =>
        transform s (db_to_gain ((Smoother.advance^[i] gs).peek))
          (db_to_gain ((Smoother.advance^[i] ts).peek)) mode delta) := by
  induction frames generalizing gs ts i with
  | nil => simp [processFrames]
  | cons frame rest ih =>
    cases i with
    | zero => simp [processFrames, Smoother.peek]
    | succ i =>
      simp only [processFrames, List.getElem?_cons_succ]
      rw [ih, Function.iterate_succ_apply, Function.iterate_succ_apply]
      rfl

/-- Raising `10 ^ (3/10)` to the tenth power gives `1000`. -/
theorem ten_rpow_three_tenths_pow_ten : ((10 : ℝ) ^ ((3 : ℝ) / 10)) ^ (10 : ℕ) = 1000 := by
  rw [← Real.rpow_natCast ((10 : ℝ) ^ ((3 : ℝ) / 10)) 10,
    ← Real.rpow_mul (by norm_num : (0 : ℝ) ≤ 10)]
  have h : (3 : ℝ) / 10 * ((10 : ℕ) : ℝ) = ((3 : ℕ) : ℝ) := by norm_num
  rw [h, Real.rpow_natCast]
  norm_num

/-- Lower bound on `10 ^ 0.3`. -/
theorem ten_rpow_three_tenths_gt : (1.995 : ℝ) < (10 : ℝ) ^ ((3 : ℝ) / 10) := by
  by_contra h
  push_neg at h
  have h0 : (0 : ℝ) ≤ (1.995 : ℝ) := by norm_num
  have hp : ((10 : ℝ) ^ ((3 : ℝ) / 10)) ^ (10 : ℕ) ≤ (1.995 : ℝ) ^ (10 : ℕ) :=
    pow_le_pow_left₀ (Real.rpow_nonneg (by norm_num) _) h 10
  rw [ten_rpow_three_tenths_pow_ten] at hp
  norm_num at hp

/-- Upper bound on `10 ^ 0.3`. -/
theorem ten_rpow_three_tenths_lt : (10 : ℝ) ^ ((3 : ℝ) / 10) < 1.996 := by
  by_contra h
  push_neg at h
  have hp : (1.996 : ℝ) ^ (10 : ℕ) ≤ ((10 : ℝ) ^ ((3 : ℝ) / 10)) ^ (10 : ℕ) :=
    pow_le_pow_left₀ (by norm_num) h 10
  rw [ten_rpow_three_tenths_pow_ten] at hp
  norm_num at hp

/-- 0 dB converts to unit linear gain. -/
theorem db_to_gain_zero : db_to_gain 0 = 1 := by
  unfold db_to_gain
  rw [zero_div, Real.rpow_zero]

/-- The -6 dB linear ceiling is the reciprocal of `10 ^ 0.3`. -/
theorem db_to_gain_neg_six : db_to_gain (-6) = ((10 : ℝ) ^ ((3 : ℝ) / 10))⁻¹ := by
  unfold db_to_gain
  have h : (-6 : ℝ) / 20 = -((3 : ℝ) / 10) := by norm_num
  rw [h, Real.rpow_neg (by norm_num : (0 : ℝ) ≤ 10)]

/-- Numeric bounds on the -6 dB linear ceiling. -/
theorem ceiling_neg_six_bounds : 0.501 < db_to_gain (-6) ∧ db_to_gain (-6) < 0.50126 := by
  have hy1 := ten_rpow_three_tenths_gt
  have hy2 := ten_rpow_three_tenths_lt
  have hy0 : (0 : ℝ) < (10 : ℝ) ^ ((3 : ℝ) / 10) := by linarith
  rw [db_to_gain_neg_six, inv_eq_one_div]
  constructor
  · rw [lt_div_iff₀ hy0]
    linarith
  · rw [div_lt_iff₀ hy0]
    linarith

/-- Lower bound on `exp 4`. -/
theorem exp_four_gt : (54.598 : ℝ) < Real.exp 4 := by
  have h : Real.exp 4 = Real.exp 1 ^ (4 : ℕ) := by
    rw [← Real.exp_nat_mul]
    norm_num
  have hb : (2.7182818283 : ℝ) ^ (4 : ℕ) < Real.exp 1 ^ (4 : ℕ) :=
    pow_lt_pow_left₀ Real.exp_one_gt_d9 (by norm_num) (by norm_num)
  rw [h]
  calc (54.598 : ℝ) < (2.7182818283 : ℝ) ^ (4 : ℕ) := by norm_num
    _ < Real.exp 1 ^ (4 : ℕ) := hb

/-- Upper bound on `exp 4`. -/
theorem exp_four_lt : Real.exp 4 < 54.599 := by
  have h : Real.exp 4 = Real.exp 1 ^ (4 : ℕ) := by
    rw [← Real.exp_nat_mul]
    norm_num
  have hb : Real.exp 1 ^ (4 : ℕ) < (2.7182818286 : ℝ) ^ (4 : ℕ) :=
    pow_lt_pow_left₀ Real.exp_one_lt_d9 (Real.exp_pos 1).le (by norm_num)
  rw [h]
  calc Real.exp 1 ^ (4 : ℕ) < (2.7182818286 : ℝ) ^ (4 : ℕ) := hb
    _ < 54.599 := by norm_num

/-- Numeric bounds on `tanh (10 ^ 0.3)`, the saturation factor of the -6 dB
soft-clip scenario. -/
theorem tanh_y_bounds :
    0.9636 < Real.tanh ((10 : ℝ) ^ ((3 : ℝ) / 10)) ∧
    Real.tanh ((10 : ℝ) ^ ((3 : ℝ) / 10)) < 0.9643 := by
  have hy1 := ten_rpow_three_tenths_gt
  have hy2 := ten_rpow_three_tenths_lt
  have hE_lo : (54.05 : ℝ) < Real.exp (2 * ((10 : ℝ) ^ ((3 : ℝ) / 10))) := by
    have h1 : Real.exp 3.99 ≤ Real.exp (2 * ((10 : ℝ) ^ ((3 : ℝ) / 10))) :=
      Real.exp_le_exp.mpr (by linarith)
    have h2 : Real.exp 3.99 = Real.exp 4 * Real.exp (-0.01) := by
      rw [← Real.exp_add]
      norm_num
    have h3 : (0.99 : ℝ) ≤ Real.exp (-0.01) := by
      have := Real.add_one_le_exp (-0.01)
      linarith
    have h4 := exp_four_gt
    have h5 : (54.598 : ℝ) * 0.99 ≤ Real.exp 4 * Real.exp (-0.01) :=
      mul_le_mul h4.le h3 (by norm_num) (Real.exp_pos 4).le
    nlinarith
  have hE_hi : Real.exp (2 * ((10 : ℝ) ^ ((3 : ℝ) / 10))) < 54.599 := by
    have h1 : Real.exp (2 * ((10 : ℝ) ^ ((3 : ℝ) / 10))) < Real.exp 4 :=
      Real.exp_lt_exp.mpr (by linarith)
    linarith [exp_four_lt]
  rw [tanh_eq_exp_quot]
  have hd : (0 : ℝ) < Real.exp (2 * ((10 : ℝ) ^ ((3 : ℝ) / 10))) + 1 := by linarith
  constructor
  · rw [lt_div_iff₀ hd]
    linarith
  · rw [div_lt_iff₀ hd]
    linarith

/-- The -6 dB hard-clip scenario reduces to the linear ceiling itself. -/
theorem hard_scenario_eq :
    transform 1 (db_to_gain 0) (db_to_gain (-6)) ClippingModes.HardClip false =
      db_to_gain (-6) := by
  have hcb := ceiling_neg_six_bounds
  have hmax : max (db_to_gain (-6)) 1.0e-12 = db_to_gain (-6) :=
    max_eq_left (by linarith [hcb.1])
  simp only [transform, hard_clip, db_to_gain_zero, mul_one, hmax,
    Bool.false_eq_true, if_false]
  rw [max_eq_left (by linarith [hcb.1] : -(db_to_gain (-6)) ≤ 1),
    min_eq_right (by linarith [hcb.2])]

/-- The -6 dB soft-clip scenario reduces to `tanh (10 ^ 0.3)` scaled by the
linear ceiling. -/
theorem soft_scenario_eq :
    transform 1 (db_to_gain 0) (db_to_gain (-6)) ClippingModes.SoftClip false =
      Real.tanh ((10 : ℝ) ^ ((3 : ℝ) / 10)) * db_to_gain (-6) := by
  have hcb := ceiling_neg_six_bounds
  have hmax : max (db_to_gain (-6)) 1.0e-12 = db_to_gain (-6) :=
    max_eq_left (by linarith [hcb.1])
  simp only [transform, soft_clip, db_to_gain_zero, mul_one, hmax,
    Bool.false_eq_true, if_false]
  rw [db_to_gain_neg_six, one_div, inv_inv]

/-! ### Claim theorems -/

/-- C1 counterexample: with the delta flag set, the hard-clip branch's output
magnitude can exceed the floored ceiling (dry = 10, gain = 1, ceiling = 1 gives
output `1 - 10 = -9`). -/
theorem hardclip_delta_output_exceeds_ceiling :
    ¬ |transform 10 1 1 ClippingModes.HardClip true| ≤ max (1 : ℝ) 1.0e-12 := by
  have hm : max (1 : ℝ) 1.0e-12 = 1 := max_eq_left (by norm_num)
  have h2 : transform 10 1 1 ClippingModes.HardClip true = -9 := by
    simp only [transform, hard_clip, mul_one, hm]
    rw [max_eq_left (by norm_num : -(1 : ℝ) ≤ 10), min_eq_right (by norm_num : (1 : ℝ) ≤ 10)]
    norm_num
  rw [hm, h2]
  norm_num

/-- C1 (amended): with the delta flag clear, for every input sample, gain and
ceiling the hard-clip output magnitude never exceeds the floored ceiling. -/
theorem hardclip_wet_output_le_floored_ceiling (dry gain ceiling : ℝ) :
    |transform dry gain ceiling ClippingModes.HardClip false| ≤ max ceiling 1.0e-12 := by
  simpa [transform] using abs_hard_clip_le (dry * gain) ceiling

/-- C2 counterexample: at ceiling 0 the soft-clip output is strictly positive,
hence its magnitude is not strictly below the (unfloored) ceiling. -/
theorem softclip_output_not_lt_zero_ceiling :
    0 < soft_clip 1 0 ∧ ¬ |soft_clip 1 0| < 0 := by
  constructor
  · have hc : (0 : ℝ) < max (0 : ℝ) 1.0e-12 := floored_ceiling_pos 0
    have hx : 0 < (1 : ℝ) / max (0 : ℝ) 1.0e-12 := by positivity
    simpa only [soft_clip] using mul_pos (tanh_pos_of_pos _ hx) hc
  · exact not_lt.mpr (abs_nonneg _)

/-- C2 (amended): for every input sample and ceiling, the soft-clip output
magnitude is strictly below the floored ceiling. -/
theorem softclip_output_lt_floored_ceiling (signal ceiling : ℝ) :
    |soft_clip signal ceiling| < max ceiling 1.0e-12 :=
  abs_soft_clip_lt signal ceiling

/-- C3: for every dry sample, gain, ceiling and mode, the transform with the
delta flag set equals the transform with it clear minus the dry sample. -/
theorem delta_output_eq_wet_minus_dry (dry gain ceiling : ℝ) (mode : ClippingModes) :
    transform dry gain ceiling mode true = transform dry gain ceiling mode false - dry := by
  cases mode <;> simp [transform]

/-- C4: with gain 1, hard clip, delta clear, and `|dry| ≤ ceiling`, the output
equals the dry sample exactly. -/
theorem hardclip_identity_below_threshold (dry ceiling : ℝ) (h : |dry| ≤ ceiling) :
    transform dry 1 ceiling ClippingModes.HardClip false = dry := by
  have hc : |dry| ≤ max ceiling 1.0e-12 := le_trans h (le_max_left _ _)
  have h1 : -(max ceiling 1.0e-12) ≤ dry := (abs_le.mp hc).1
  have h2 : dry ≤ max ceiling 1.0e-12 := (abs_le.mp hc).2
  simp only [transform, hard_clip, mul_one, Bool.false_eq_true, if_false]
  rw [max_eq_left h1, min_eq_left h2]

/-- C4 witness: the identity theorem applied at dry = 1/2, ceiling = 1. -/
theorem hardclip_identity_below_threshold_witness :
    |(1 / 2 : ℝ)| ≤ 1 ∧ transform (1 / 2) 1 1 ClippingModes.HardClip false = 1 / 2 :=
  ⟨by rw [abs_of_nonneg] <;> norm_num,
   hardclip_identity_below_threshold (1 / 2) 1 (by rw [abs_of_nonneg] <;> norm_num)⟩

/-- C5: in both branches the ceiling used is the floored one — at least `1e-12`
and strictly positive — and both clipper outputs are bounded by it in
magnitude, so the transform stays finite (no division by zero, no degenerate
clamp) for every finite input, including a zero or negative linear ceiling. -/
theorem ceiling_floor_keeps_output_finite (signal ceiling : ℝ) :
    1.0e-12 ≤ max ceiling 1.0e-12 ∧ 0 < max ceiling 1.0e-12 ∧
    |hard_clip signal ceiling| ≤ max ceiling 1.0e-12 ∧
    |soft_clip signal ceiling| ≤ max ceiling 1.0e-12 :=
  ⟨le_max_right _ _, floored_ceiling_pos _, abs_hard_clip_le _ _, (abs_soft_clip_lt _ _).le⟩

/-- C7: a newly constructed parameter set has Gain = 0 dB over [-12, 12] with
step 0.1 and 50 ms linear smoothing, Threshold = 0 dB over [-24, 0] with step
0.1 and 50 ms linear smoothing, Delta off, and Mode = HardClip. -/
theorem default_params_match_documented :
    PluginParams.default.gain.value = 0 ∧
    PluginParams.default.gain.range.min = -12.0 ∧
    PluginParams.default.gain.range.max = 12.0 ∧
    PluginParams.default.gain.stepSize = some 0.1 ∧
    PluginParams.default.gain.smoothing = SmoothingStyle.Linear 50.0 ∧
    PluginParams.default.threshold.value = 0 ∧
    PluginParams.default.threshold.range.min = -24.0 ∧
    PluginParams.default.threshold.range.max = 0.0 ∧
    PluginParams.default.threshold.stepSize = some 0.1 ∧
    PluginParams.default.threshold.smoothing = SmoothingStyle.Linear 50.0 ∧
    PluginParams.default.delta.value = false ∧
    PluginParams.default.mode.value = ClippingModes.HardClip := by
  norm_num [PluginParams.default, FloatParam.new, FloatParam.with_step_size,
    FloatParam.with_smoother, FloatParam.with_unit, BoolParam.new,
    EnumParamClippingModes.new]

/-- C6: per processed frame, exactly one gain-smoothing step and one
threshold-smoothing step are advanced; dB values are converted to linear via
`10 ^ (db / 20)`; and every channel sample of frame `i` is transformed with the
same `i`-th linear gain and ceiling pair. -/
theorem one_smoothing_step_per_frame_shared_across_channels
    (mode : ClippingModes) (delta : Bool) (gs ts : Smoother) (frames : List (List ℝ)) :
    (∀ db : ℝ, db_to_gain db = (10 : ℝ) ^ (db / 20)) ∧
    (processFrames mode delta gs ts frames).2.1 = Smoother.advance^[frames.length] gs ∧
    (processFrames mode delta gs ts frames).2.2 = Smoother.advance^[frames.length] ts ∧
    ∀ i : ℕ,
      ((processFrames mode delta gs ts frames).1)[i]? =
        (frames[i]?).map (List.map fun s =>
          transform s (db_to_gain ((Smoother.advance^[i] gs).peek))
            (db_to_gain ((Smoother.advance^[i] ts).peek)) mode delta) :=
  ⟨fun _ => rfl, processFrames_gain_state mode delta gs ts frames,
   processFrames_threshold_state mode delta gs ts frames,
   processFrames_getElem mode delta gs ts frames⟩

/-- C8: `RClip::process` preserves the buffer's frame count and every frame's
channel count (it only rewrites sample values), and always returns
`ProcessStatus::Normal`. -/
theorem process_preserves_layout_and_returns_normal (p : RClip) (buffer : List (List ℝ)) :
    ((RClip.process p buffer).1).length = buffer.length ∧
    (∀ i : ℕ,
      (((RClip.process p buffer).1)[i]?).map List.length = (buffer[i]?).map List.length) ∧
    (RClip.process p buffer).2.2 = ProcessStatus.Normal := by
  refine ⟨processFrames_length _ _ _ _ _, fun i => ?_, rfl⟩
  have h : ((RClip.process p buffer).1)[i]? =
      (processFrames p.params.mode.value p.params.delta.value
        p.params.gain.smoothed p.params.threshold.smoothed buffer).1[i]? := rfl
  rw [h, processFrames_getElem]
  cases buffer[i]? with
  | none => rfl
  | some frame => simp [List.length_map]

/-- C9 counterexample: in the -6 dB soft-clip scenario the output is about
`0.483`, not about `0.462` — it misses the claimed value by more than `0.015`,
far outside floating-point tolerance. -/
theorem scenario_softclip_not_462 :
    ¬ |transform 1 (db_to_gain 0) (db_to_gain (-6)) ClippingModes.SoftClip false -
        0.462| ≤ 0.015 := by
  rw [soft_scenario_eq]
  intro h
  have h2 := (abs_le.mp h).2
  have hcb := ceiling_neg_six_bounds
  have ht := tanh_y_bounds
  have hc0 : (0 : ℝ) < db_to_gain (-6) := by linarith [hcb.1]
  have hl : (0.9636 : ℝ) * db_to_gain (-6) <
      Real.tanh ((10 : ℝ) ^ ((3 : ℝ) / 10)) * db_to_gain (-6) :=
    mul_lt_mul_of_pos_right ht.1 hc0
  nlinarith [hcb.1]

/-- C9 (amended): with gain 0 dB, threshold -6 dB, delta off and input 1.0, the
hard-clip output is within `0.001` of `0.501` and the soft-clip output is
within `0.001` of `0.483` (the spec's own formula `tanh(1/0.501) * 0.501`
evaluates to about `0.483`, not `0.462`). -/
theorem scenario_minus6db_outputs :
    |transform 1 (db_to_gain 0) (db_to_gain (-6)) ClippingModes.HardClip false -
      0.501| < 0.001 ∧
    |transform 1 (db_to_gain 0) (db_to_gain (-6)) ClippingModes.SoftClip false -
      0.483| < 0.001 := by
  have hcb := ceiling_neg_six_bounds
  have ht := tanh_y_bounds
  have hc0 : (0 : ℝ) < db_to_gain (-6) := by linarith [hcb.1]
  constructor
  · rw [hard_scenario_eq, abs_lt]
    constructor <;> linarith [hcb.1, hcb.2]
  · rw [soft_scenario_eq, abs_lt]
    have hl : (0.9636 : ℝ) * db_to_gain (-6) <
        Real.tanh ((10 : ℝ) ^ ((3 : ℝ) / 10)) * db_to_gain (-6) :=
      mul_lt_mul_of_pos_right ht.1 hc0
    have hu : Real.tanh ((10 : ℝ) ^ ((3 : ℝ) / 10)) * db_to_gain (-6) <
        (0.9643 : ℝ) * db_to_gain (-6) :=
      mul_lt_mul_of_pos_right ht.2 hc0
    constructor <;> nlinarith [hcb.1, hcb.2]

/-- C10: `RClip::reset` has an empty body, so it leaves the entire processor
state (parameter targets and smoothing state) unchanged. -/
theorem reset_leaves_state_unchanged (p : RClip) : RClip.reset p = p :=
  rfl
